import Mathlib

/-!
Shallow embedding of the CodeWhisperer job-state layer
(`CodeScanState`, `TransformByQState`, the two stopped-error values and
their supporting enumerations), translated from the TypeScript source.
Class fields become structure fields, methods become functions taking the
receiver state; setters return the updated state.
-/

/-- Icons are produced by `getIcon(id)` in the shared icons module; for this
development an icon is identified by its id string. -/
structure Icon where
  id : String
deriving DecidableEq, Repr

/-- Modelled from the spec: `getIcon` (shared/icons, not under src/) resolves an
icon id to an icon value; here it is the tagging constructor. -/
def getIcon (id : String) : Icon := ⟨id⟩

/-- Modelled from the spec: `ToolkitError` (shared/errors, not under src/) — a
typed outcome carrying a human-readable message and a `cancelled` marker that
distinguishes a user-initiated stop from a plain failure; no other payload. -/
structure ToolkitError where
  message : String
  cancelled : Bool
deriving DecidableEq, Repr

/-- enum CodeScanStatus { NotStarted, Running, Cancelling } -/
inductive CodeScanStatus
  | NotStarted
  | Running
  | Cancelling
deriving DecidableEq, BEq, Repr

/-- class CodeScanState: the single private field `codeScanState`,
initialized to `CodeScanStatus.NotStarted`. -/
structure CodeScanState where
  codeScanState : CodeScanStatus := CodeScanStatus.NotStarted
deriving DecidableEq, Repr

/-- new CodeScanState() -/
def CodeScanState.new : CodeScanState := {}

def CodeScanState.isNotStarted (s : CodeScanState) : Bool :=
  s.codeScanState == CodeScanStatus.NotStarted

def CodeScanState.isRunning (s : CodeScanState) : Bool :=
  s.codeScanState == CodeScanStatus.Running

def CodeScanState.isCancelling (s : CodeScanState) : Bool :=
  s.codeScanState == CodeScanStatus.Cancelling

def CodeScanState.setToNotStarted (s : CodeScanState) : CodeScanState :=
  { s with codeScanState := CodeScanStatus.NotStarted }

def CodeScanState.setToCancelling (s : CodeScanState) : CodeScanState :=
  { s with codeScanState := CodeScanStatus.Cancelling }

def CodeScanState.setToRunning (s : CodeScanState) : CodeScanState :=
  { s with codeScanState := CodeScanStatus.Running }

def CodeScanState.getPrefixTextForButton (s : CodeScanState) : String :=
  match s.codeScanState with
  | CodeScanStatus.NotStarted => "Run"
  | CodeScanStatus.Running => "Stop"
  | CodeScanStatus.Cancelling => "Stopping"

def CodeScanState.getIconForButton (s : CodeScanState) : Icon :=
  match s.codeScanState with
  | CodeScanStatus.NotStarted => getIcon "vscode-debug-alt-small"
  | CodeScanStatus.Running => getIcon "vscode-stop-circle"
  | CodeScanStatus.Cancelling => getIcon "vscode-icons:loading~spin"

/-- new CodeScanStoppedError(): super('Security scan stopped by user.',
\x7b cancelled: true \x7d). Every instance carries exactly this payload. -/
def CodeScanStoppedError : ToolkitError :=
  { message := "Security scan stopped by user.", cancelled := true }

/-- enum TransformByQStatus (string-valued; see `TransformByQStatus.val`). -/
inductive TransformByQStatus
  | NotStarted
  | Running
  | Cancelled
  | Failed
  | Succeeded
  | PartiallySucceeded
deriving DecidableEq, BEq, Repr

/-- The declared string value of each TransformByQStatus enumerant. -/
def TransformByQStatus.val : TransformByQStatus → String
  | NotStarted => "Not Started"
  | Running => "Running"
  | Cancelled => "Cancelled"
  | Failed => "Failed"
  | Succeeded => "Succeeded"
  | PartiallySucceeded => "Partially Succeeded"

/-- enum TransformByQReviewStatus { NotStarted, PreparingReview, InReview } -/
inductive TransformByQReviewStatus
  | NotStarted
  | PreparingReview
  | InReview
deriving DecidableEq, BEq, Repr

/-- enum JDKVersion { JDK8 = '8', JDK11 = '11', JDK17 = '17' } -/
inductive JDKVersion
  | JDK8
  | JDK11
  | JDK17
deriving DecidableEq, BEq, Repr

/-- The declared string value of each JDKVersion enumerant. -/
def JDKVersion.val : JDKVersion → String
  | JDK8 => "8"
  | JDK11 => "11"
  | JDK17 => "17"

/-- Declaration index of each JDKVersion enumerant (order of declaration). -/
def JDKVersion.idx : JDKVersion → Nat
  | JDK8 => 0
  | JDK11 => 1
  | JDK17 => 2

/-- The lowest (first-declared, numerically smallest-valued) JDKVersion
enumerant. -/
def JDKVersion.lowest : JDKVersion := JDKVersion.JDK8

theorem JDKVersion.lowest_idx_le (v : JDKVersion) :
    JDKVersion.lowest.idx ≤ v.idx := by
  cases v <;> simp [JDKVersion.lowest, JDKVersion.idx]

/-- class TransformByQState: all private fields with their initializers. -/
structure TransformByQState where
  transformByQState : TransformByQStatus := TransformByQStatus.NotStarted
  projectName : String := ""
  projectPath : String := ""
  jobId : String := ""
  sourceJDKVersion : JDKVersion := JDKVersion.JDK8
  targetJDKVersion : JDKVersion := JDKVersion.JDK17
  planFilePath : String := ""
  summaryFilePath : String := ""
  polledJobStatus : String := ""
  jobFailureReason : String := ""
deriving DecidableEq, Repr

/-- new TransformByQState() -/
def TransformByQState.new : TransformByQState := {}

def TransformByQState.isNotStarted (s : TransformByQState) : Bool :=
  s.transformByQState == TransformByQStatus.NotStarted

def TransformByQState.isRunning (s : TransformByQState) : Bool :=
  s.transformByQState == TransformByQStatus.Running

def TransformByQState.isCancelled (s : TransformByQState) : Bool :=
  s.transformByQState == TransformByQStatus.Cancelled

def TransformByQState.isFailed (s : TransformByQState) : Bool :=
  s.transformByQState == TransformByQStatus.Failed

def TransformByQState.isSucceeded (s : TransformByQState) : Bool :=
  s.transformByQState == TransformByQStatus.Succeeded

def TransformByQState.isPartiallySucceeded (s : TransformByQState) : Bool :=
  s.transformByQState == TransformByQStatus.PartiallySucceeded

def TransformByQState.getProjectName (s : TransformByQState) : String :=
  s.projectName

def TransformByQState.getProjectPath (s : TransformByQState) : String :=
  s.projectPath

def TransformByQState.getJobId (s : TransformByQState) : String :=
  s.jobId

def TransformByQState.getSourceJDKVersion (s : TransformByQState) : JDKVersion :=
  s.sourceJDKVersion

def TransformByQState.getTargetJDKVersion (s : TransformByQState) : JDKVersion :=
  s.targetJDKVersion

def TransformByQState.getStatus (s : TransformByQState) : TransformByQStatus :=
  s.transformByQState

def TransformByQState.getPolledJobStatus (s : TransformByQState) : String :=
  s.polledJobStatus

def TransformByQState.getPlanFilePath (s : TransformByQState) : String :=
  s.planFilePath

def TransformByQState.getSummaryFilePath (s : TransformByQState) : String :=
  s.summaryFilePath

def TransformByQState.getJobFailureReason (s : TransformByQState) : String :=
  s.jobFailureReason

def TransformByQState.setToNotStarted (s : TransformByQState) : TransformByQState :=
  { s with transformByQState := TransformByQStatus.NotStarted }

def TransformByQState.setToRunning (s : TransformByQState) : TransformByQState :=
  { s with transformByQState := TransformByQStatus.Running }

def TransformByQState.setToCancelled (s : TransformByQState) : TransformByQState :=
  { s with transformByQState := TransformByQStatus.Cancelled }

def TransformByQState.setToFailed (s : TransformByQState) : TransformByQState :=
  { s with transformByQState := TransformByQStatus.Failed }

def TransformByQState.setToSucceeded (s : TransformByQState) : TransformByQState :=
  { s with transformByQState := TransformByQStatus.Succeeded }

def TransformByQState.setToPartiallySucceeded (s : TransformByQState) : TransformByQState :=
  { s with transformByQState := TransformByQStatus.PartiallySucceeded }

def TransformByQState.setProjectName (s : TransformByQState) (name : String) : TransformByQState :=
  { s with projectName := name }

def TransformByQState.setProjectPath (s : TransformByQState) (path : String) : TransformByQState :=
  { s with projectPath := path }

def TransformByQState.setJobId (s : TransformByQState) (id : String) : TransformByQState :=
  { s with jobId := id }

def TransformByQState.setSourceJDKVersionToJDK8 (s : TransformByQState) : TransformByQState :=
  { s with sourceJDKVersion := JDKVersion.JDK8 }

def TransformByQState.setSourceJDKVersionToJDK11 (s : TransformByQState) : TransformByQState :=
  { s with sourceJDKVersion := JDKVersion.JDK11 }

def TransformByQState.setTargetJDKVersionToJDK17 (s : TransformByQState) : TransformByQState :=
  { s with targetJDKVersion := JDKVersion.JDK17 }

def TransformByQState.setPlanFilePath (s : TransformByQState) (filePath : String) : TransformByQState :=
  { s with planFilePath := filePath }

def TransformByQState.setPolledJobStatus (s : TransformByQState) (status : String) : TransformByQState :=
  { s with polledJobStatus := status }

def TransformByQState.setSummaryFilePath (s : TransformByQState) (filePath : String) : TransformByQState :=
  { s with summaryFilePath := filePath }

def TransformByQState.setJobFailureReason (s : TransformByQState) (reason : String) : TransformByQState :=
  { s with jobFailureReason := reason }

def TransformByQState.getPrefixTextForButton (s : TransformByQState) : String :=
  match s.transformByQState with
  | TransformByQStatus.NotStarted => "Run"
  | TransformByQStatus.Cancelled => "Stopping"
  | _ => "Stop"

def TransformByQState.getIconForButton (s : TransformByQState) : Icon :=
  match s.transformByQState with
  | TransformByQStatus.NotStarted => getIcon "vscode-play"
  | _ => getIcon "vscode-stop-circle"

/-- new TransformByQStoppedError(): super('Transform by Q stopped by user.',
\x7b cancelled: true \x7d). Every instance carries exactly this payload. -/
def TransformByQStoppedError : ToolkitError :=
  { message := "Transform by Q stopped by user.", cancelled := true }

/-!
Call sequences: each mutating public method as data, so that theorems can
quantify over arbitrary sequences of calls.
-/

/-- The transition setters of CodeScanState, as data. -/
inductive CodeScanOp
  | toNotStarted
  | toCancelling
  | toRunning
deriving DecidableEq, Repr

/-- Apply one CodeScanState transition setter. -/
def CodeScanOp.apply : CodeScanOp → CodeScanState → CodeScanState
  | CodeScanOp.toNotStarted, s => s.setToNotStarted
  | CodeScanOp.toCancelling, s => s.setToCancelling
  | CodeScanOp.toRunning, s => s.setToRunning

/-- The state each CodeScanState transition setter writes. -/
def CodeScanOp.target : CodeScanOp → CodeScanStatus
  | CodeScanOp.toNotStarted => CodeScanStatus.NotStarted
  | CodeScanOp.toCancelling => CodeScanStatus.Cancelling
  | CodeScanOp.toRunning => CodeScanStatus.Running

/-- Run a sequence of CodeScanState transition setters, first to last. -/
def CodeScanState.runOps (s : CodeScanState) (ops : List CodeScanOp) : CodeScanState :=
  ops.foldl (fun t op => op.apply t) s

/-- The transition setters of TransformByQState, as data. -/
inductive TransformStateOp
  | toNotStarted
  | toRunning
  | toCancelled
  | toFailed
  | toSucceeded
  | toPartiallySucceeded
deriving DecidableEq, Repr

/-- Apply one TransformByQState transition setter. -/
def TransformStateOp.apply : TransformStateOp → TransformByQState → TransformByQState
  | TransformStateOp.toNotStarted, s => s.setToNotStarted
  | TransformStateOp.toRunning, s => s.setToRunning
  | TransformStateOp.toCancelled, s => s.setToCancelled
  | TransformStateOp.toFailed, s => s.setToFailed
  | TransformStateOp.toSucceeded, s => s.setToSucceeded
  | TransformStateOp.toPartiallySucceeded, s => s.setToPartiallySucceeded

/-- The state each TransformByQState transition setter writes. -/
def TransformStateOp.target : TransformStateOp → TransformByQStatus
  | TransformStateOp.toNotStarted => TransformByQStatus.NotStarted
  | TransformStateOp.toRunning => TransformByQStatus.Running
  | TransformStateOp.toCancelled => TransformByQStatus.Cancelled
  | TransformStateOp.toFailed => TransformByQStatus.Failed
  | TransformStateOp.toSucceeded => TransformByQStatus.Succeeded
  | TransformStateOp.toPartiallySucceeded => TransformByQStatus.PartiallySucceeded

/-- Run a sequence of TransformByQState transition setters, first to last. -/
def TransformByQState.runStateOps (s : TransformByQState) (ops : List TransformStateOp) :
    TransformByQState :=
  ops.foldl (fun t op => op.apply t) s

/-- Every public mutating operation of TransformByQState (transition setters
and metadata setters), as data. -/
inductive TransformOp
  | toNotStarted
  | toRunning
  | toCancelled
  | toFailed
  | toSucceeded
  | toPartiallySucceeded
  | projectName (v : String)
  | projectPath (v : String)
  | jobId (v : String)
  | sourceToJDK8
  | sourceToJDK11
  | targetToJDK17
  | planFilePath (v : String)
  | polledJobStatus (v : String)
  | summaryFilePath (v : String)
  | jobFailureReason (v : String)
deriving DecidableEq, Repr

/-- Apply one public mutating operation of TransformByQState. -/
def TransformOp.apply : TransformOp → TransformByQState → TransformByQState
  | TransformOp.toNotStarted, s => s.setToNotStarted
  | TransformOp.toRunning, s => s.setToRunning
  | TransformOp.toCancelled, s => s.setToCancelled
  | TransformOp.toFailed, s => s.setToFailed
  | TransformOp.toSucceeded, s => s.setToSucceeded
  | TransformOp.toPartiallySucceeded, s => s.setToPartiallySucceeded
  | TransformOp.projectName v, s => s.setProjectName v
  | TransformOp.projectPath v, s => s.setProjectPath v
  | TransformOp.jobId v, s => s.setJobId v
  | TransformOp.sourceToJDK8, s => s.setSourceJDKVersionToJDK8
  | TransformOp.sourceToJDK11, s => s.setSourceJDKVersionToJDK11
  | TransformOp.targetToJDK17, s => s.setTargetJDKVersionToJDK17
  | TransformOp.planFilePath v, s => s.setPlanFilePath v
  | TransformOp.polledJobStatus v, s => s.setPolledJobStatus v
  | TransformOp.summaryFilePath v, s => s.setSummaryFilePath v
  | TransformOp.jobFailureReason v, s => s.setJobFailureReason v

/-- Run a sequence of public TransformByQState operations, first to last. -/
def TransformByQState.runOps (s : TransformByQState) (ops : List TransformOp) :
    TransformByQState :=
  ops.foldl (fun t op => op.apply t) s

/-- The JDK-version invariant of reachable TransformByQState values: the
target is always JDK17 and the source is JDK8 or JDK11. -/
def jdkVersionInvariant (s : TransformByQState) : Prop :=
  s.targetJDKVersion = JDKVersion.JDK17 ∧
    (s.sourceJDKVersion = JDKVersion.JDK8 ∨ s.sourceJDKVersion = JDKVersion.JDK11)

theorem jdkVersionInvariant_step (op : TransformOp) (s : TransformByQState)
    (h : jdkVersionInvariant s) : jdkVersionInvariant (op.apply s) := by
  obtain ⟨ht, hs⟩ := h
  cases op <;>
    simp_all [jdkVersionInvariant, TransformOp.apply, TransformByQState.setToNotStarted,
      TransformByQState.setToRunning, TransformByQState.setToCancelled,
      TransformByQState.setToFailed, TransformByQState.setToSucceeded,
      TransformByQState.setToPartiallySucceeded, TransformByQState.setProjectName,
      TransformByQState.setProjectPath, TransformByQState.setJobId,
      TransformByQState.setSourceJDKVersionToJDK8, TransformByQState.setSourceJDKVersionToJDK11,
      TransformByQState.setTargetJDKVersionToJDK17, TransformByQState.setPlanFilePath,
      TransformByQState.setPolledJobStatus, TransformByQState.setSummaryFilePath,
      TransformByQState.setJobFailureReason]

theorem jdkVersionInvariant_runOps (ops : List TransformOp) (s : TransformByQState)
    (h : jdkVersionInvariant s) : jdkVersionInvariant (s.runOps ops) := by
  induction ops generalizing s with
  | nil => exact h
  | cons op rest ih => exact ih (op.apply s) (jdkVersionInvariant_step op s h)

/-!
Claim theorems.
-/

/-- Claim C1: state storage is a plain overwrite with no hidden history.
For every starting state and every sequence of transition-setter calls
ending in a given setter, the state observed afterwards (getStatus, or the
field the isX predicates read) is exactly that setter's target, for both
controllers; and the scan scenario run → cancelling → notStarted is
observed through the predicates as stated. -/
theorem lastTransitionSetterWins :
    (∀ (s : CodeScanState) (l : List CodeScanOp) (op : CodeScanOp),
      (s.runOps (l ++ [op])).codeScanState = op.target) ∧
    (∀ (s : TransformByQState) (l : List TransformStateOp) (op : TransformStateOp),
      (s.runStateOps (l ++ [op])).getStatus = op.target) ∧
    (∀ s : CodeScanState,
      s.setToRunning.isRunning = true ∧
      s.setToRunning.setToCancelling.isCancelling = true ∧
      s.setToRunning.setToCancelling.isRunning = false ∧
      s.setToRunning.setToCancelling.setToNotStarted.isNotStarted = true) := by
  refine ⟨?_, ?_, ?_⟩
  · intro s l op
    have h : s.runOps (l ++ [op]) = op.apply (s.runOps l) := by
      simp [CodeScanState.runOps, List.foldl_append]
    rw [h]
    cases op <;> rfl
  · intro s l op
    have h : s.runStateOps (l ++ [op]) = op.apply (s.runStateOps l) := by
      simp [TransformByQState.runStateOps, List.foldl_append]
    rw [h]
    cases op <;> rfl
  · intro s
    exact ⟨rfl, rfl, rfl, rfl⟩

/-- Claim C2: the presentation derivations of both controllers are pure,
total functions of the current state: in this embedding they are functions
of the state value alone (so repeated calls with no intervening transition
are literally the same value, and no state is produced or mutated), and for
every state of each vocabulary the label and the icon id are non-empty. -/
theorem presentationPureAndTotal :
    (∀ s : CodeScanState,
      s.getPrefixTextForButton ≠ "" ∧
      s.getIconForButton.id ≠ "" ∧
      s.getPrefixTextForButton = s.getPrefixTextForButton ∧
      s.getIconForButton = s.getIconForButton) ∧
    (∀ s : TransformByQState,
      s.getPrefixTextForButton ≠ "" ∧
      s.getIconForButton.id ≠ "" ∧
      s.getPrefixTextForButton = s.getPrefixTextForButton ∧
      s.getIconForButton = s.getIconForButton) := by
  constructor
  · rintro ⟨st⟩
    cases st <;> exact ⟨by decide, by decide, rfl, rfl⟩
  · rintro ⟨st, p1, p2, p3, p4, p5, p6, p7, p8, p9⟩
    cases st <;>
      refine ⟨?_, ?_, rfl, rfl⟩ <;>
        simp [TransformByQState.getPrefixTextForButton, TransformByQState.getIconForButton,
          getIcon]

/-- Claim C3 counterexample: in the Cancelled state the TransformByQState
button label is "Stopping", not "Stop", so the five non-NotStarted states
are not all sent to "Stop". -/
theorem transformCancelledLabelCounterexample :
    TransformByQState.new.setToCancelled.isCancelled = true ∧
    TransformByQState.new.setToCancelled.getPrefixTextForButton = "Stopping" ∧
    TransformByQState.new.setToCancelled.getPrefixTextForButton ≠ "Stop" :=
  ⟨rfl, rfl, by decide⟩

/-- Claim C3 amended: the label mapping sends exactly Running, Failed,
Succeeded and PartiallySucceeded to "Stop", exactly Cancelled to "Stopping",
and exactly NotStarted to "Run"; the icon mapping sends exactly the five
non-NotStarted states to the stop icon and exactly NotStarted to the start
icon. -/
theorem transformPresentationMapping (s : TransformByQState) :
    (s.getPrefixTextForButton = "Stop" ↔
      (s.getStatus = TransformByQStatus.Running ∨
       s.getStatus = TransformByQStatus.Failed ∨
       s.getStatus = TransformByQStatus.Succeeded ∨
       s.getStatus = TransformByQStatus.PartiallySucceeded)) ∧
    (s.getPrefixTextForButton = "Stopping" ↔ s.getStatus = TransformByQStatus.Cancelled) ∧
    (s.getPrefixTextForButton = "Run" ↔ s.getStatus = TransformByQStatus.NotStarted) ∧
    (s.getIconForButton = getIcon "vscode-stop-circle" ↔
      s.getStatus ≠ TransformByQStatus.NotStarted) ∧
    (s.getIconForButton = getIcon "vscode-play" ↔
      s.getStatus = TransformByQStatus.NotStarted) := by
  obtain ⟨st, p1, p2, p3, p4, p5, p6, p7, p8, p9⟩ := s
  cases st <;>
    simp [TransformByQState.getPrefixTextForButton, TransformByQState.getIconForButton,
      TransformByQState.getStatus, getIcon, Icon.mk.injEq]

/-- Claim C4 counterexample: a fresh TransformByQState has target JDK
version JDK17, which is not the lowest value of the JDKVersion
enumeration. -/
theorem freshTargetNotLowestCounterexample :
    TransformByQState.new.getTargetJDKVersion = JDKVersion.JDK17 ∧
    TransformByQState.new.getTargetJDKVersion ≠ JDKVersion.lowest :=
  ⟨rfl, by decide⟩

/-- Claim C4 amended: a fresh TransformByQState satisfies isNotStarted,
every string-typed metadata getter returns the empty string (so reading
before setting yields a defined value and never throws), getSourceJDKVersion
returns the lowest JDKVersion (JDK8), and getTargetJDKVersion returns
JDK17. -/
theorem freshTransformDefaults :
    TransformByQState.new.isNotStarted = true ∧
    TransformByQState.new.getProjectName = "" ∧
    TransformByQState.new.getProjectPath = "" ∧
    TransformByQState.new.getJobId = "" ∧
    TransformByQState.new.getPlanFilePath = "" ∧
    TransformByQState.new.getSummaryFilePath = "" ∧
    TransformByQState.new.getPolledJobStatus = "" ∧
    TransformByQState.new.getJobFailureReason = "" ∧
    TransformByQState.new.getSourceJDKVersion = JDKVersion.lowest ∧
    TransformByQState.new.getTargetJDKVersion = JDKVersion.JDK17 := by
  exact ⟨rfl, rfl, rfl, rfl, rfl, rfl, rfl, rfl, rfl, rfl⟩

/-- Claim C5: every metadata setter of TransformByQState changes only its
own field: from every starting state (and for every string argument where
the setter takes one), the job state and every other metadata getter are
unchanged. The isX predicates read only the job state, so they are
unchanged as well. -/
theorem metadataSetterFrame (s : TransformByQState) (v : String) :
    (s.setProjectName v).getStatus = s.getStatus ∧
    (s.setProjectName v).getProjectPath = s.getProjectPath ∧
    (s.setProjectName v).getJobId = s.getJobId ∧
    (s.setProjectName v).getSourceJDKVersion = s.getSourceJDKVersion ∧
    (s.setProjectName v).getTargetJDKVersion = s.getTargetJDKVersion ∧
    (s.setProjectName v).getPlanFilePath = s.getPlanFilePath ∧
    (s.setProjectName v).getPolledJobStatus = s.getPolledJobStatus ∧
    (s.setProjectName v).getSummaryFilePath = s.getSummaryFilePath ∧
    (s.setProjectName v).getJobFailureReason = s.getJobFailureReason ∧
    (s.setProjectPath v).getStatus = s.getStatus ∧
    (s.setProjectPath v).getProjectName = s.getProjectName ∧
    (s.setProjectPath v).getJobId = s.getJobId ∧
    (s.setProjectPath v).getSourceJDKVersion = s.getSourceJDKVersion ∧
    (s.setProjectPath v).getTargetJDKVersion = s.getTargetJDKVersion ∧
    (s.setProjectPath v).getPlanFilePath = s.getPlanFilePath ∧
    (s.setProjectPath v).getPolledJobStatus = s.getPolledJobStatus ∧
    (s.setProjectPath v).getSummaryFilePath = s.getSummaryFilePath ∧
    (s.setProjectPath v).getJobFailureReason = s.getJobFailureReason ∧
    (s.setJobId v).getStatus = s.getStatus ∧
    (s.setJobId v).getProjectName = s.getProjectName ∧
    (s.setJobId v).getProjectPath = s.getProjectPath ∧
    (s.setJobId v).getSourceJDKVersion = s.getSourceJDKVersion ∧
    (s.setJobId v).getTargetJDKVersion = s.getTargetJDKVersion ∧
    (s.setJobId v).getPlanFilePath = s.getPlanFilePath ∧
    (s.setJobId v).getPolledJobStatus = s.getPolledJobStatus ∧
    (s.setJobId v).getSummaryFilePath = s.getSummaryFilePath ∧
    (s.setJobId v).getJobFailureReason = s.getJobFailureReason ∧
    (s.setSourceJDKVersionToJDK8).getStatus = s.getStatus ∧
    (s.setSourceJDKVersionToJDK8).getProjectName = s.getProjectName ∧
    (s.setSourceJDKVersionToJDK8).getProjectPath = s.getProjectPath ∧
    (s.setSourceJDKVersionToJDK8).getJobId = s.getJobId ∧
    (s.setSourceJDKVersionToJDK8).getTargetJDKVersion = s.getTargetJDKVersion ∧
    (s.setSourceJDKVersionToJDK8).getPlanFilePath = s.getPlanFilePath ∧
    (s.setSourceJDKVersionToJDK8).getPolledJobStatus = s.getPolledJobStatus ∧
    (s.setSourceJDKVersionToJDK8).getSummaryFilePath = s.getSummaryFilePath ∧
    (s.setSourceJDKVersionToJDK8).getJobFailureReason = s.getJobFailureReason ∧
    (s.setSourceJDKVersionToJDK11).getStatus = s.getStatus ∧
    (s.setSourceJDKVersionToJDK11).getProjectName = s.getProjectName ∧
    (s.setSourceJDKVersionToJDK11).getProjectPath = s.getProjectPath ∧
    (s.setSourceJDKVersionToJDK11).getJobId = s.getJobId ∧
    (s.setSourceJDKVersionToJDK11).getTargetJDKVersion = s.getTargetJDKVersion ∧
    (s.setSourceJDKVersionToJDK11).getPlanFilePath = s.getPlanFilePath ∧
    (s.setSourceJDKVersionToJDK11).getPolledJobStatus = s.getPolledJobStatus ∧
    (s.setSourceJDKVersionToJDK11).getSummaryFilePath = s.getSummaryFilePath ∧
    (s.setSourceJDKVersionToJDK11).getJobFailureReason = s.getJobFailureReason ∧
    (s.setTargetJDKVersionToJDK17).getStatus = s.getStatus ∧
    (s.setTargetJDKVersionToJDK17).getProjectName = s.getProjectName ∧
    (s.setTargetJDKVersionToJDK17).getProjectPath = s.getProjectPath ∧
    (s.setTargetJDKVersionToJDK17).getJobId = s.getJobId ∧
    (s.setTargetJDKVersionToJDK17).getSourceJDKVersion = s.getSourceJDKVersion ∧
    (s.setTargetJDKVersionToJDK17).getPlanFilePath = s.getPlanFilePath ∧
    (s.setTargetJDKVersionToJDK17).getPolledJobStatus = s.getPolledJobStatus ∧
    (s.setTargetJDKVersionToJDK17).getSummaryFilePath = s.getSummaryFilePath ∧
    (s.setTargetJDKVersionToJDK17).getJobFailureReason = s.getJobFailureReason ∧
    (s.setPlanFilePath v).getStatus = s.getStatus ∧
    (s.setPlanFilePath v).getProjectName = s.getProjectName ∧
    (s.setPlanFilePath v).getProjectPath = s.getProjectPath ∧
    (s.setPlanFilePath v).getJobId = s.getJobId ∧
    (s.setPlanFilePath v).getSourceJDKVersion = s.getSourceJDKVersion ∧
    (s.setPlanFilePath v).getTargetJDKVersion = s.getTargetJDKVersion ∧
    (s.setPlanFilePath v).getPolledJobStatus = s.getPolledJobStatus ∧
    (s.setPlanFilePath v).getSummaryFilePath = s.getSummaryFilePath ∧
    (s.setPlanFilePath v).getJobFailureReason = s.getJobFailureReason ∧
    (s.setPolledJobStatus v).getStatus = s.getStatus ∧
    (s.setPolledJobStatus v).getProjectName = s.getProjectName ∧
    (s.setPolledJobStatus v).getProjectPath = s.getProjectPath ∧
    (s.setPolledJobStatus v).getJobId = s.getJobId ∧
    (s.setPolledJobStatus v).getSourceJDKVersion = s.getSourceJDKVersion ∧
    (s.setPolledJobStatus v).getTargetJDKVersion = s.getTargetJDKVersion ∧
    (s.setPolledJobStatus v).getPlanFilePath = s.getPlanFilePath ∧
    (s.setPolledJobStatus v).getSummaryFilePath = s.getSummaryFilePath ∧
    (s.setPolledJobStatus v).getJobFailureReason = s.getJobFailureReason ∧
    (s.setSummaryFilePath v).getStatus = s.getStatus ∧
    (s.setSummaryFilePath v).getProjectName = s.getProjectName ∧
    (s.setSummaryFilePath v).getProjectPath = s.getProjectPath ∧
    (s.setSummaryFilePath v).getJobId = s.getJobId ∧
    (s.setSummaryFilePath v).getSourceJDKVersion = s.getSourceJDKVersion ∧
    (s.setSummaryFilePath v).getTargetJDKVersion = s.getTargetJDKVersion ∧
    (s.setSummaryFilePath v).getPlanFilePath = s.getPlanFilePath ∧
    (s.setSummaryFilePath v).getPolledJobStatus = s.getPolledJobStatus ∧
    (s.setSummaryFilePath v).getJobFailureReason = s.getJobFailureReason ∧
    (s.setJobFailureReason v).getStatus = s.getStatus ∧
    (s.setJobFailureReason v).getProjectName = s.getProjectName ∧
    (s.setJobFailureReason v).getProjectPath = s.getProjectPath ∧
    (s.setJobFailureReason v).getJobId = s.getJobId ∧
    (s.setJobFailureReason v).getSourceJDKVersion = s.getSourceJDKVersion ∧
    (s.setJobFailureReason v).getTargetJDKVersion = s.getTargetJDKVersion ∧
    (s.setJobFailureReason v).getPlanFilePath = s.getPlanFilePath ∧
    (s.setJobFailureReason v).getPolledJobStatus = s.getPolledJobStatus ∧
    (s.setJobFailureReason v).getSummaryFilePath = s.getSummaryFilePath := by
  and_intros <;> rfl

/-- Claim C6: the CodeScanState presentation mapping is exactly
NotStarted → "Run" with the start icon (vscode-debug-alt-small),
Running → "Stop" with the stop icon (vscode-stop-circle), and
Cancelling → "Stopping" with the loading-spinner icon
(vscode-icons:loading~spin). -/
theorem scanPresentationMapping (s : CodeScanState) :
    (s.getPrefixTextForButton = "Run" ↔ s.isNotStarted = true) ∧
    (s.getPrefixTextForButton = "Stop" ↔ s.isRunning = true) ∧
    (s.getPrefixTextForButton = "Stopping" ↔ s.isCancelling = true) ∧
    (s.getIconForButton = getIcon "vscode-debug-alt-small" ↔ s.isNotStarted = true) ∧
    (s.getIconForButton = getIcon "vscode-stop-circle" ↔ s.isRunning = true) ∧
    (s.getIconForButton = getIcon "vscode-icons:loading~spin" ↔ s.isCancelling = true) := by
  obtain ⟨st⟩ := s
  cases st <;> decide

/-- Claim C7: the two cancellation-signal values, CodeScanStoppedError and
TransformByQStoppedError, each carry cancelled = true together with their
fixed human-readable message, and they are distinct values; a caller can
distinguish a user-initiated stop from a plain failure (an outcome with
cancelled = false) by testing the cancelled marker. -/
theorem stoppedErrorsCancelledMarker :
    CodeScanStoppedError.cancelled = true ∧
    CodeScanStoppedError.message = "Security scan stopped by user." ∧
    TransformByQStoppedError.cancelled = true ∧
    TransformByQStoppedError.message = "Transform by Q stopped by user." ∧
    CodeScanStoppedError ≠ TransformByQStoppedError ∧
    (∀ e : ToolkitError, e.cancelled = false →
      CodeScanStoppedError ≠ e ∧ TransformByQStoppedError ≠ e) := by
  refine ⟨rfl, rfl, rfl, rfl, by decide, ?_⟩
  intro e he
  constructor <;> intro h <;> rw [← h] at he <;> simp [CodeScanStoppedError,
    TransformByQStoppedError] at he

/-- Modelled from the spec: the review-status dimension
(TransformByQReviewStatus) is tracked separately from the job state and its
holder is not under src/. A configuration pairs the TransformByQState
instance with the separately-tracked review status; the lifted
setToSucceeded acts on the job-state component only, because the source
method writes only the transformByQState field. -/
structure TransformConfig where
  state : TransformByQState
  reviewStatus : TransformByQReviewStatus
deriving DecidableEq, Repr

/-- Lift of TransformByQState.setToSucceeded to a configuration carrying
the separately-tracked review status. -/
def TransformConfig.setToSucceeded (c : TransformConfig) : TransformConfig :=
  { c with state := c.state.setToSucceeded }

/-- Claim C8: from every starting configuration, setToSucceeded moves the
job state to Succeeded and leaves the review-status dimension and every
field other than the job state unchanged. -/
theorem setToSucceededPreservesReviewState (c : TransformConfig) :
    c.setToSucceeded.reviewStatus = c.reviewStatus ∧
    c.setToSucceeded.state.getStatus = TransformByQStatus.Succeeded ∧
    c.setToSucceeded.state.getProjectName = c.state.getProjectName ∧
    c.setToSucceeded.state.getProjectPath = c.state.getProjectPath ∧
    c.setToSucceeded.state.getJobId = c.state.getJobId ∧
    c.setToSucceeded.state.getSourceJDKVersion = c.state.getSourceJDKVersion ∧
    c.setToSucceeded.state.getTargetJDKVersion = c.state.getTargetJDKVersion ∧
    c.setToSucceeded.state.getPlanFilePath = c.state.getPlanFilePath ∧
    c.setToSucceeded.state.getPolledJobStatus = c.state.getPolledJobStatus ∧
    c.setToSucceeded.state.getSummaryFilePath = c.state.getSummaryFilePath ∧
    c.setToSucceeded.state.getJobFailureReason = c.state.getJobFailureReason := by
  and_intros <;> rfl

/-- Claim C9: in every state of either controller the isX predicates are
mutually exclusive and exhaustive — exactly one of them is true (their
Bool-to-Nat values sum to 1). Since this holds in every state, it is
preserved by every operation. -/
theorem statePredicatesExactlyOne :
    (∀ s : CodeScanState,
      s.isNotStarted.toNat + s.isRunning.toNat + s.isCancelling.toNat = 1) ∧
    (∀ s : TransformByQState,
      s.isNotStarted.toNat + s.isRunning.toNat + s.isCancelled.toNat +
        s.isFailed.toNat + s.isSucceeded.toNat + s.isPartiallySucceeded.toNat = 1) := by
  constructor
  · rintro ⟨st⟩
    cases st <;> rfl
  · rintro ⟨st, p1, p2, p3, p4, p5, p6, p7, p8, p9⟩
    cases st <;> rfl

/-- Claim C10: along every sequence of public TransformByQState operations
starting from a fresh instance, the target JDK version is always JDK17 and
the source JDK version is always JDK8 or JDK11 — so the source is never
JDK17 and the target is never anything but JDK17. -/
theorem reachableJDKVersions (ops : List TransformOp) :
    (TransformByQState.new.runOps ops).getTargetJDKVersion = JDKVersion.JDK17 ∧
    ((TransformByQState.new.runOps ops).getSourceJDKVersion = JDKVersion.JDK8 ∨
      (TransformByQState.new.runOps ops).getSourceJDKVersion = JDKVersion.JDK11) ∧
    (TransformByQState.new.runOps ops).getSourceJDKVersion ≠ JDKVersion.JDK17 := by
  have h : jdkVersionInvariant (TransformByQState.new.runOps ops) :=
    jdkVersionInvariant_runOps ops TransformByQState.new ⟨rfl, Or.inl rfl⟩
  obtain ⟨ht, hs⟩ := h
  refine ⟨ht, hs, ?_⟩
  rcases hs with h8 | h11
  · rw [TransformByQState.getSourceJDKVersion, h8]
    decide
  · rw [TransformByQState.getSourceJDKVersion, h11]
    decide

/-- Witness for the C7 theorem at a concrete plain-failure outcome: a
ToolkitError with cancelled = false differs from both stopped-error
values. -/
theorem stoppedErrorsCancelledMarker_witness :
    CodeScanStoppedError ≠ ({ message := "network failure", cancelled := false } : ToolkitError) ∧
    TransformByQStoppedError ≠ ({ message := "network failure", cancelled := false } : ToolkitError) :=
  stoppedErrorsCancelledMarker.2.2.2.2.2
    { message := "network failure", cancelled := false } rfl
